import Mathlib

/-!
Verification of the ARduino (pen-style) block extension: per-actor color/size
state, the modern HSV+transparency color model, the legacy hue/shade model,
and the renderer-facing RGBA cache.

Numbers are embedded as `ℚ` (the JavaScript arithmetic used by the module is
exact on the rationals produced by these operations). The runtime-supplied
argument casts (`Cast.toNumber`, `Cast.toRgbColorObject`) are represented by
taking the operations' inputs as already-cast numbers / RGB records.
-/

/-- Truncation toward zero, as performed by the JavaScript `%` operator's
quotient: `trunc q` is `⌊q⌋` for nonnegative `q` and `-⌊-q⌋` for negative `q`. -/
def ratTrunc (q : ℚ) : ℤ := if q < 0 then -⌊-q⌋ else ⌊q⌋

/-- The JavaScript remainder operator `a % b`: `a - b * trunc (a / b)`.
Its result has the sign of the dividend `a`. -/
def jsMod (a b : ℚ) : ℚ := a - b * (ratTrunc (a / b) : ℚ)

/-- Modelled from the spec: `MathUtil.clamp` is not under `src/`; the spec
describes size and color-parameter clamping as a "saturating clamp (values
below min raised to min, above max lowered to max)". -/
def MathUtil.clamp (n lo hi : ℚ) : ℚ := min (max n lo) hi

/-- Modelled from the spec: `MathUtil.wrapClamp` is not under `src/`; the spec
describes the color wrap as "wrap-clamp semantics (not saturating): result is
taken modulo 100 into the half-open range [0,100)", i.e. for range `[lo,hi)`
the value is reduced modulo `hi - lo` with negative correction
(`((x % 100) + 100) % 100` for the color case). -/
def MathUtil.wrapClamp (value lo hi : ℚ) : ℚ :=
  lo + jsMod (jsMod (value - lo) (hi - lo) + (hi - lo)) (hi - lo)

/-- An RGB color with channels in the 0–255 range. -/
structure RGB where
  r : ℚ
  g : ℚ
  b : ℚ
deriving DecidableEq

/-- An HSV color: hue in degrees, saturation and value in [0,1]. -/
structure HSV where
  h : ℚ
  s : ℚ
  v : ℚ
deriving DecidableEq

/-- Modelled from the spec: hue normalization used by the standard HSV→RGB
conversion (`Color.hsvToRgb` is not under `src/`): the hue is reduced modulo
360 into [0,360). -/
def hueNorm (h : ℚ) : ℚ := if jsMod h 360 < 0 then jsMod h 360 + 360 else jsMod h 360

/-- Modelled from the spec: the 60-degree sector index of a hue, part of the
standard HSV→RGB conversion. -/
def hsvSector (h : ℚ) : ℤ := ⌊hueNorm h / 60⌋

/-- Modelled from the spec: the fractional position of a hue within its
60-degree sector, part of the standard HSV→RGB conversion. -/
def hsvFrac (h : ℚ) : ℚ := hueNorm h / 60 - (hsvSector h : ℚ)

/-- Modelled from the spec: the standard HSV→RGB conversion on unit-range
channels, before scaling to 0–255. -/
def hsvToRgbUnit (h s v : ℚ) : RGB :=
  if hsvSector h = 0 then ⟨v, v * (1 - s * (1 - hsvFrac h)), v * (1 - s)⟩
  else if hsvSector h = 1 then ⟨v * (1 - s * hsvFrac h), v, v * (1 - s)⟩
  else if hsvSector h = 2 then ⟨v * (1 - s), v, v * (1 - s * (1 - hsvFrac h))⟩
  else if hsvSector h = 3 then ⟨v * (1 - s), v * (1 - s * hsvFrac h), v⟩
  else if hsvSector h = 4 then ⟨v * (1 - s * (1 - hsvFrac h)), v * (1 - s), v⟩
  else ⟨v, v * (1 - s), v * (1 - s * hsvFrac h)⟩

/-- Modelled from the spec: `Color.hsvToRgb` ("a standard HSV→RGB conversion"
producing channels "in 0–255 channel range"); saturation and value are clamped
into [0,1] and each output channel is floored to an integer. -/
def Color.hsvToRgb (c : HSV) : RGB :=
  ⟨(⌊(hsvToRgbUnit c.h (min (max c.s 0) 1) (min (max c.v 0) 1)).r * 255⌋ : ℚ),
   (⌊(hsvToRgbUnit c.h (min (max c.s 0) 1) (min (max c.v 0) 1)).g * 255⌋ : ℚ),
   (⌊(hsvToRgbUnit c.h (min (max c.s 0) 1) (min (max c.v 0) 1)).b * 255⌋ : ℚ)⟩

/-- Modelled from the spec: the minimum unit-scaled channel of an RGB color,
used by the standard RGB→HSV conversion. -/
def rgbMin (c : RGB) : ℚ := min (min (c.r / 255) (c.g / 255)) (c.b / 255)

/-- Modelled from the spec: the maximum unit-scaled channel of an RGB color,
the HSV value of the standard RGB→HSV conversion. -/
def rgbMax (c : RGB) : ℚ := max (max (c.r / 255) (c.g / 255)) (c.b / 255)

/-- Modelled from the spec: the chroma numerator of the standard RGB→HSV hue
formula, selected by which channel is minimal. -/
def rgbHsvF (c : RGB) : ℚ :=
  if c.r / 255 = rgbMin c then c.g / 255 - c.b / 255
  else if c.g / 255 = rgbMin c then c.b / 255 - c.r / 255
  else c.r / 255 - c.g / 255

/-- Modelled from the spec: the sector offset of the standard RGB→HSV hue
formula, selected by which channel is minimal. -/
def rgbHsvI (c : RGB) : ℚ :=
  if c.r / 255 = rgbMin c then 3
  else if c.g / 255 = rgbMin c then 5
  else 1

/-- Modelled from the spec: `Color.rgbToHsv` (the standard RGB→HSV conversion,
assumed by the spec as a pre-existing correct utility); hue is in degrees
[0,360), saturation and value in [0,1]; an achromatic input gets hue 0 and
saturation 0. -/
def Color.rgbToHsv (c : RGB) : HSV :=
  if rgbMin c = rgbMax c then ⟨0, 0, rgbMax c⟩
  else
    ⟨jsMod ((rgbHsvI c - rgbHsvF c / (rgbMax c - rgbMin c)) * 60) 360,
     (rgbMax c - rgbMin c) / rgbMax c,
     rgbMax c⟩

/-- Modelled from the spec: `Color.mixRgb`, the "linear mixing" utility —
channelwise `(1 - fraction1) · rgb0 + fraction1 · rgb1`. -/
def Color.mixRgb (rgb0 rgb1 : RGB) (fraction1 : ℚ) : RGB :=
  ⟨(1 - fraction1) * rgb0.r + fraction1 * rgb1.r,
   (1 - fraction1) * rgb0.g + fraction1 * rgb1.g,
   (1 - fraction1) * rgb0.b + fraction1 * rgb1.b⟩

/-- Modelled from the spec: `Color.RGB_BLACK`. -/
def Color.RGB_BLACK : RGB := ⟨0, 0, 0⟩

/-- Modelled from the spec: `Color.RGB_WHITE`. -/
def Color.RGB_WHITE : RGB := ⟨255, 255, 255⟩

/-- The result of `Cast.toRgbColorObject`: an RGB triple with an optional
alpha channel, each channel in 0–255. -/
structure RgbColorObject where
  r : ℚ
  g : ℚ
  b : ℚ
  a : Option ℚ
deriving DecidableEq

/-- The renderer-facing color quadruple `color4f`, each component in [0,1]. -/
structure Color4f where
  r : ℚ
  g : ℚ
  b : ℚ
  a : ℚ
deriving DecidableEq

/-- The `arduinoAttributes` record consumed by the renderer. -/
structure ARduinoAttributes where
  color4f : Color4f
  diameter : ℚ
deriving DecidableEq

/-- The per-target `ARduinoState` record. The source field `_shade` is embedded
as `_shade` here as well. -/
structure ARduinoState where
  arduinoDown : Bool
  color : ℚ
  saturation : ℚ
  brightness : ℚ
  transparency : ℚ
  _shade : ℚ
  arduinoAttributes : ARduinoAttributes
deriving DecidableEq

/-- `DEFAULT_ARDUINO_STATE` from the source. -/
def DEFAULT_ARDUINO_STATE : ARduinoState :=
  { arduinoDown := false
    color := 66.66
    saturation := 100
    brightness := 100
    transparency := 0
    _shade := 50
    arduinoAttributes := { color4f := ⟨0, 0, 1, 1⟩, diameter := 1 } }

/-- `ARDUINO_SIZE_RANGE` from the source. -/
def ARDUINO_SIZE_RANGE : ℚ × ℚ := (1, 1200)

/-- `ColorParam.COLOR` from the source. -/
def ColorParam.COLOR : String := "color"

/-- `ColorParam.SATURATION` from the source. -/
def ColorParam.SATURATION : String := "saturation"

/-- `ColorParam.BRIGHTNESS` from the source. -/
def ColorParam.BRIGHTNESS : String := "brightness"

/-- `ColorParam.TRANSPARENCY` from the source. -/
def ColorParam.TRANSPARENCY : String := "transparency"

/-- `_clampARduinoSize` from the source: clamp a requested size into the
allowed range. -/
def _clampARduinoSize (requestedSize : ℚ) : ℚ :=
  MathUtil.clamp requestedSize ARDUINO_SIZE_RANGE.1 ARDUINO_SIZE_RANGE.2

/-- `_wrapColor` from the source: wrap a color input into the range [0,100). -/
def _wrapColor (value : ℚ) : ℚ := MathUtil.wrapClamp value 0 100

/-- `_clampColorParam` from the source: clamp a color parameter into [0,100]. -/
def _clampColorParam (value : ℚ) : ℚ := MathUtil.clamp value 0 100

/-- `_alphaToTransparency` from the source. -/
def _alphaToTransparency (alpha : ℚ) : ℚ := (1 - alpha) * 100

/-- `_transparencyToAlpha` from the source. -/
def _transparencyToAlpha (transparency : ℚ) : ℚ := 1 - transparency / 100

/-- The `color4f` quadruple computed inside `_updateARduinoColor`: the
HSV→RGB conversion of the current parameters with each channel divided by
255, and the alpha complement of the transparency. -/
def updatedColor4f (s : ARduinoState) : Color4f :=
  ⟨(Color.hsvToRgb ⟨s.color * 360 / 100, s.saturation / 100, s.brightness / 100⟩).r / 255,
   (Color.hsvToRgb ⟨s.color * 360 / 100, s.saturation / 100, s.brightness / 100⟩).g / 255,
   (Color.hsvToRgb ⟨s.color * 360 / 100, s.saturation / 100, s.brightness / 100⟩).b / 255,
   _transparencyToAlpha s.transparency⟩

/-- `_updateARduinoColor` from the source: recompute the cached `color4f`
from the `color`, `saturation`, `brightness` and `transparency` values. -/
def _updateARduinoColor (s : ARduinoState) : ARduinoState :=
  { s with arduinoAttributes := { s.arduinoAttributes with color4f := updatedColor4f s } }

/-- `_setOrChangeColorParam` from the source. The `Bool` in the result records
whether the unknown-parameter warning was logged (`log.warn` in the default
branch); in every branch the call falls through to `_updateARduinoColor`. -/
def _setOrChangeColorParam (param : String) (value : ℚ) (s : ARduinoState) (change : Bool) :
    ARduinoState × Bool :=
  if param = ColorParam.COLOR then
    (_updateARduinoColor { s with color := _wrapColor (value + (if change then s.color else 0)) }, false)
  else if param = ColorParam.SATURATION then
    (_updateARduinoColor { s with saturation := _clampColorParam (value + (if change then s.saturation else 0)) }, false)
  else if param = ColorParam.BRIGHTNESS then
    (_updateARduinoColor { s with brightness := _clampColorParam (value + (if change then s.brightness else 0)) }, false)
  else if param = ColorParam.TRANSPARENCY then
    (_updateARduinoColor { s with transparency := _clampColorParam (value + (if change then s.transparency else 0)) }, false)
  else
    (_updateARduinoColor s, true)

/-- `changeARduinoColorParamBy` from the source. -/
def changeARduinoColorParamBy (param : String) (value : ℚ) (s : ARduinoState) :
    ARduinoState × Bool :=
  _setOrChangeColorParam param value s true

/-- `setARduinoColorParamTo` from the source. -/
def setARduinoColorParamTo (param : String) (value : ℚ) (s : ARduinoState) :
    ARduinoState × Bool :=
  _setOrChangeColorParam param value s false

/-- `setARduinoColorToColor` from the source: store HSV components converted
from the RGB input, the transparency from the optional alpha channel, the
legacy `_shade` as half the new brightness, then recompute `color4f`. -/
def setARduinoColorToColor (rgb : RgbColorObject) (s : ARduinoState) : ARduinoState :=
  _updateARduinoColor
    { s with
      color := (Color.rgbToHsv ⟨rgb.r, rgb.g, rgb.b⟩).h / 360 * 100
      saturation := (Color.rgbToHsv ⟨rgb.r, rgb.g, rgb.b⟩).s * 100
      brightness := (Color.rgbToHsv ⟨rgb.r, rgb.g, rgb.b⟩).v * 100
      transparency := match rgb.a with | some a => 100 * (1 - a / 255) | none => 0
      _shade := (Color.rgbToHsv ⟨rgb.r, rgb.g, rgb.b⟩).v * 100 / 2 }

/-- The shade folding in `_legacyUpdateARduinoColor`:
`(arduinoState._shade > 100) ? 200 - arduinoState._shade : arduinoState._shade`. -/
def legacyShadeFold (s : ARduinoState) : ℚ :=
  if s._shade > 100 then 200 - s._shade else s._shade

/-- The shade-mixed RGB computed inside `_legacyUpdateARduinoColor`: the
hue-only color is mixed from black (shade below 50) or toward white
(otherwise). -/
def legacyMixedRgb (s : ARduinoState) : RGB :=
  if legacyShadeFold s < 50 then
    Color.mixRgb Color.RGB_BLACK (Color.hsvToRgb ⟨s.color * 360 / 100, 1, 1⟩)
      ((10 + legacyShadeFold s) / 60)
  else
    Color.mixRgb (Color.hsvToRgb ⟨s.color * 360 / 100, 1, 1⟩) Color.RGB_WHITE
      ((legacyShadeFold s - 50) / 60)

/-- `_legacyUpdateARduinoColor` from the source: recompute `color`,
`saturation` and `brightness` from the hue & shade values Scratch 2.0 style,
then refresh `color4f`. -/
def _legacyUpdateARduinoColor (s : ARduinoState) : ARduinoState :=
  _updateARduinoColor
    { s with
      color := 100 * (Color.rgbToHsv (legacyMixedRgb s)).h / 360
      saturation := 100 * (Color.rgbToHsv (legacyMixedRgb s)).s
      brightness := 100 * (Color.rgbToHsv (legacyMixedRgb s)).v }

/-- `setARduinoShadeToNumber` from the source: wrap the shade into [0,200)
the way Scratch 2 did, store it, and run the legacy recompute. -/
def setARduinoShadeToNumber (shadeValue : ℚ) (s : ARduinoState) : ARduinoState :=
  _legacyUpdateARduinoColor
    { s with _shade :=
        if jsMod shadeValue 200 < 0 then jsMod shadeValue 200 + 200 else jsMod shadeValue 200 }

/-- `changeARduinoShadeBy` from the source: route through
`setARduinoShadeToNumber` using the stored `_shade`. -/
def changeARduinoShadeBy (shadeChange : ℚ) (s : ARduinoState) : ARduinoState :=
  setARduinoShadeToNumber (s._shade + shadeChange) s

/-- `setARduinoHueToNumber` from the source: set the modern color to half the
hue, reset transparency to 0, then run the legacy recompute. -/
def setARduinoHueToNumber (hueValue : ℚ) (s : ARduinoState) : ARduinoState :=
  _legacyUpdateARduinoColor
    (_setOrChangeColorParam ColorParam.TRANSPARENCY 0
      (_setOrChangeColorParam ColorParam.COLOR (hueValue / 2) s false).1 false).1

/-- `changeARduinoHueBy` from the source: change the modern color by half the
hue change, then run the legacy recompute. -/
def changeARduinoHueBy (hueChange : ℚ) (s : ARduinoState) : ARduinoState :=
  _legacyUpdateARduinoColor
    (_setOrChangeColorParam ColorParam.COLOR (hueChange / 2) s true).1

/-- `setARduinoSizeTo` from the source: clamp the requested size into the
allowed range and store it as the diameter. -/
def setARduinoSizeTo (size : ℚ) (s : ARduinoState) : ARduinoState :=
  { s with arduinoAttributes :=
    { s.arduinoAttributes with
        diameter := _clampARduinoSize size } }

/-- `changeARduinoSizeBy` from the source: add the change to the current
diameter and clamp into the allowed range. -/
def changeARduinoSizeBy (sizeChange : ℚ) (s : ARduinoState) : ARduinoState :=
  { s with arduinoAttributes :=
    { s.arduinoAttributes with
        diameter := _clampARduinoSize (s.arduinoAttributes.diameter + sizeChange) } }

/-- The observable target-side context of the trail operations: the target's
position and how many `EVENT_TARGET_MOVED` listeners this extension has
registered on it (`addListener` / `removeListener`). -/
structure TargetState where
  x : ℚ
  y : ℚ
  movedListeners : ℤ
deriving DecidableEq

/-- A drawing instruction forwarded to the renderer. -/
inductive DrawEvent : Type where
  | point : ARduinoAttributes → ℚ → ℚ → DrawEvent
  | line : ARduinoAttributes → ℚ → ℚ → ℚ → ℚ → DrawEvent
deriving DecidableEq

/-- `arduinoDown` from the source: if the arduino is not already down, set the
flag and register a movement listener; then (renderer permitting) draw a single
point at the target's current position. -/
def arduinoDown (rendererAvailable : Bool) (target : TargetState) (s : ARduinoState) :
    ARduinoState × TargetState × List DrawEvent :=
  ((if s.arduinoDown then s else { s with arduinoDown := true }),
   (if s.arduinoDown then target
    else { target with movedListeners := target.movedListeners + 1 }),
   (if rendererAvailable then [DrawEvent.point s.arduinoAttributes target.x target.y] else []))

/-- `arduinoUp` from the source: if the arduino is down, clear the flag and
remove the movement listener; otherwise do nothing. -/
def arduinoUp (target : TargetState) (s : ARduinoState) : ARduinoState × TargetState :=
  if s.arduinoDown then
    ({ s with arduinoDown := false },
     { target with movedListeners := target.movedListeners - 1 })
  else
    (s, target)

/-- Spec-side formula for the renderer color (claim C2's wording): the
HSV→RGB conversion of `(color*3.6 degrees, saturation/100, brightness/100)`
with each channel divided by 255, and alpha `1 - transparency/100`. -/
def specRgba (s : ARduinoState) : Color4f :=
  ⟨(Color.hsvToRgb ⟨s.color * 3.6, s.saturation / 100, s.brightness / 100⟩).r / 255,
   (Color.hsvToRgb ⟨s.color * 3.6, s.saturation / 100, s.brightness / 100⟩).g / 255,
   (Color.hsvToRgb ⟨s.color * 3.6, s.saturation / 100, s.brightness / 100⟩).b / 255,
   1 - s.transparency / 100⟩

/-- The rgba-consistency invariant: the cached `color4f` agrees with the
current `(color, saturation, brightness, transparency)` tuple. -/
def consistent (s : ARduinoState) : Prop :=
  s.arduinoAttributes.color4f = specRgba s

instance (s : ARduinoState) : Decidable (consistent s) := by
  unfold consistent
  infer_instance

/-- Spec-side step-1 color of the legacy recompute (claim C3's wording):
`hsvToRgb(color*3.6 degrees, saturation=1, value=1)`. -/
def legacySpecStepOneRgb (s : ARduinoState) : RGB :=
  Color.hsvToRgb ⟨s.color * 3.6, 1, 1⟩

/-- Spec-side folded shade of the legacy recompute (claim C3's wording):
`legacyShade > 100 ? 200 - legacyShade : legacyShade`. -/
def legacySpecEffectiveShade (s : ARduinoState) : ℚ :=
  if s._shade > 100 then 200 - s._shade else s._shade

/-- Spec-side mixed color of the legacy recompute (claim C3's wording): below
an effective shade of 50 mix from black toward the step-1 color with ratio
`(10+effectiveShade)/60`; at exactly 50 the step-1 color is left unchanged
(the toward-white branch with ratio 0); above 50 mix from the step-1 color
toward white with ratio `(effectiveShade-50)/60`. -/
def legacySpecMixedRgb (s : ARduinoState) : RGB :=
  if legacySpecEffectiveShade s < 50 then
    Color.mixRgb Color.RGB_BLACK (legacySpecStepOneRgb s) ((10 + legacySpecEffectiveShade s) / 60)
  else if legacySpecEffectiveShade s = 50 then
    legacySpecStepOneRgb s
  else
    Color.mixRgb (legacySpecStepOneRgb s) Color.RGB_WHITE ((legacySpecEffectiveShade s - 50) / 60)

/-- Spec-side legacy recompute (claim C3's wording): convert the mixed RGB
back to HSV, overwrite `color`, `saturation` and `brightness`, then refresh
`color4f` via the modern recompute. -/
def legacySpecUpdate (s : ARduinoState) : ARduinoState :=
  _updateARduinoColor
    { s with
      color := 100 * (Color.rgbToHsv (legacySpecMixedRgb s)).h / 360
      saturation := 100 * (Color.rgbToHsv (legacySpecMixedRgb s)).s
      brightness := 100 * (Color.rgbToHsv (legacySpecMixedRgb s)).v }

/-! ### Arithmetic facts about the JavaScript remainder -/

lemma ratTrunc_cast_of_nonneg (q : ℚ) (h : 0 ≤ q) : (ratTrunc q : ℚ) = (⌊q⌋ : ℚ) := by
  rw [ratTrunc, if_neg (not_lt.mpr h)]

lemma ratTrunc_cast_of_neg (q : ℚ) (h : q < 0) : (ratTrunc q : ℚ) = -(⌊-q⌋ : ℚ) := by
  rw [ratTrunc, if_pos h]
  push_cast
  ring

lemma jsMod_nonneg {a b : ℚ} (hb : 0 < b) (ha : 0 ≤ a) : 0 ≤ jsMod a b := by
  have hq : 0 ≤ a / b := div_nonneg ha hb.le
  have hab : b * (a / b) = a := by field_simp
  rw [jsMod, ratTrunc_cast_of_nonneg _ hq]
  have h3 := mul_le_mul_of_nonneg_left (Int.floor_le (a / b)) hb.le
  rw [hab] at h3
  linarith

lemma jsMod_nonpos {a b : ℚ} (hb : 0 < b) (ha : a < 0) : jsMod a b ≤ 0 := by
  have hq : a / b < 0 := div_neg_of_neg_of_pos ha hb
  have hab : b * (a / b) = a := by field_simp
  rw [jsMod, ratTrunc_cast_of_neg _ hq]
  have h3 := mul_le_mul_of_nonneg_left (Int.floor_le (-(a / b))) hb.le
  rw [mul_neg, hab] at h3
  have h4 : a - b * -((⌊-(a / b)⌋ : ℚ)) = a + b * (⌊-(a / b)⌋ : ℚ) := by ring
  rw [h4]
  linarith

lemma jsMod_lt {a b : ℚ} (hb : 0 < b) : jsMod a b < b := by
  rcases le_or_lt 0 a with ha | ha
  · have hq : 0 ≤ a / b := div_nonneg ha hb.le
    have hab : b * (a / b) = a := by field_simp
    rw [jsMod, ratTrunc_cast_of_nonneg _ hq]
    have h3 := mul_lt_mul_of_pos_left (Int.lt_floor_add_one (a / b)) hb
    rw [hab, mul_add, mul_one] at h3
    linarith
  · have := jsMod_nonpos hb ha
    linarith

lemma neg_lt_jsMod {a b : ℚ} (hb : 0 < b) : -b < jsMod a b := by
  rcases le_or_lt 0 a with ha | ha
  · have := jsMod_nonneg hb ha
    linarith
  · have hq : a / b < 0 := div_neg_of_neg_of_pos ha hb
    have hab : b * (a / b) = a := by field_simp
    rw [jsMod, ratTrunc_cast_of_neg _ hq]
    have h3 := mul_lt_mul_of_pos_left (Int.lt_floor_add_one (-(a / b))) hb
    rw [mul_neg, hab, mul_add, mul_one] at h3
    have h4 : a - b * -((⌊-(a / b)⌋ : ℚ)) = a + b * (⌊-(a / b)⌋ : ℚ) := by ring
    rw [h4]
    linarith

lemma jsMod_eq_self {a b : ℚ} (hb : 0 < b) (h0 : 0 ≤ a) (h1 : a < b) : jsMod a b = a := by
  have hq : 0 ≤ a / b := div_nonneg h0 hb.le
  have hlt : a / b < 1 := (div_lt_one hb).mpr h1
  rw [jsMod, ratTrunc_cast_of_nonneg _ hq, Int.floor_eq_zero_iff.mpr ⟨hq, hlt⟩]
  push_cast
  ring

lemma jsMod_eq_sub {a b : ℚ} (hb : 0 < b) (h0 : b ≤ a) (h1 : a < 2 * b) : jsMod a b = a - b := by
  have hge : (1 : ℚ) ≤ a / b := (le_div_iff₀ hb).mpr (by linarith)
  have hlt : a / b < 2 := (div_lt_iff₀ hb).mpr (by linarith)
  have hq : 0 ≤ a / b := by linarith
  have hfl : ⌊a / b⌋ = 1 := by
    rw [Int.floor_eq_iff]
    constructor
    · exact_mod_cast hge
    · push_cast
      linarith
  rw [jsMod, ratTrunc_cast_of_nonneg _ hq, hfl]
  push_cast
  ring

lemma wrap_nonneg {x b : ℚ} (hb : 0 < b) : 0 ≤ jsMod (jsMod x b + b) b := by
  have := neg_lt_jsMod (a := x) hb
  exact jsMod_nonneg hb (by linarith)

lemma wrap_lt {x b : ℚ} (hb : 0 < b) : jsMod (jsMod x b + b) b < b := jsMod_lt hb

/-- The Scratch-2 style wrap (`x % b`, then add `b` if negative) agrees with
the `((x % b) + b) % b` normal form. -/
lemma ifwrap_eq_wrap {x b : ℚ} (hb : 0 < b) :
    (if jsMod x b < 0 then jsMod x b + b else jsMod x b) = jsMod (jsMod x b + b) b := by
  rcases lt_or_le (jsMod x b) 0 with h | h
  · rw [if_pos h, jsMod_eq_self (a := jsMod x b + b) hb
      (by linarith [neg_lt_jsMod (a := x) (b := b) hb]) (by linarith)]
  · rw [if_neg (not_lt.mpr h), jsMod_eq_sub (a := jsMod x b + b) hb (by linarith)
      (by linarith [jsMod_lt (a := x) (b := b) hb])]
    ring

lemma wrapColor_eq (x : ℚ) : _wrapColor x = jsMod (jsMod x 100 + 100) 100 := by
  simp [_wrapColor, MathUtil.wrapClamp]

/-! ### Facts about the modern recompute -/

lemma mul_360_div_100 (x : ℚ) : x * 360 / 100 = x * 3.6 := by
  ring_nf

@[simp] lemma _updateARduinoColor_arduinoDown (s : ARduinoState) :
    (_updateARduinoColor s).arduinoDown = s.arduinoDown := rfl

@[simp] lemma _updateARduinoColor_color (s : ARduinoState) :
    (_updateARduinoColor s).color = s.color := rfl

@[simp] lemma _updateARduinoColor_saturation (s : ARduinoState) :
    (_updateARduinoColor s).saturation = s.saturation := rfl

@[simp] lemma _updateARduinoColor_brightness (s : ARduinoState) :
    (_updateARduinoColor s).brightness = s.brightness := rfl

@[simp] lemma _updateARduinoColor_transparency (s : ARduinoState) :
    (_updateARduinoColor s).transparency = s.transparency := rfl

@[simp] lemma _updateARduinoColor_shade (s : ARduinoState) :
    (_updateARduinoColor s)._shade = s._shade := rfl

@[simp] lemma _updateARduinoColor_diameter (s : ARduinoState) :
    (_updateARduinoColor s).arduinoAttributes.diameter = s.arduinoAttributes.diameter := rfl

@[simp] lemma _updateARduinoColor_color4f (s : ARduinoState) :
    (_updateARduinoColor s).arduinoAttributes.color4f = updatedColor4f s := rfl

lemma updatedColor4f_eq_specRgba (s : ARduinoState) : updatedColor4f s = specRgba s := by
  simp [updatedColor4f, specRgba, _transparencyToAlpha, mul_360_div_100]

/-- The modern recompute establishes the rgba-consistency invariant
unconditionally. -/
lemma consistent_updateARduinoColor (s : ARduinoState) :
    consistent (_updateARduinoColor s) := by
  have h : specRgba (_updateARduinoColor s) = specRgba s := by
    simp [specRgba]
  rw [consistent, _updateARduinoColor_color4f, h, updatedColor4f_eq_specRgba]

/-- If the invariant holds, the recompute writes back the value already
cached, so it is the identity on the whole state. -/
lemma _updateARduinoColor_of_consistent {s : ARduinoState} (h : consistent s) :
    _updateARduinoColor s = s := by
  rw [_updateARduinoColor, updatedColor4f_eq_specRgba, ← h]

@[simp] lemma _legacyUpdateARduinoColor_arduinoDown (s : ARduinoState) :
    (_legacyUpdateARduinoColor s).arduinoDown = s.arduinoDown := rfl

@[simp] lemma _legacyUpdateARduinoColor_shade (s : ARduinoState) :
    (_legacyUpdateARduinoColor s)._shade = s._shade := rfl

@[simp] lemma _legacyUpdateARduinoColor_diameter (s : ARduinoState) :
    (_legacyUpdateARduinoColor s).arduinoAttributes.diameter = s.arduinoAttributes.diameter := rfl

/-- Mixing with fraction 0 returns the first color unchanged. -/
lemma mixRgb_zero (a b : RGB) : Color.mixRgb a b 0 = a := by
  cases a
  simp [Color.mixRgb]

lemma consistent_setOrChange (p : String) (v : ℚ) (s : ARduinoState) (c : Bool) :
    consistent (_setOrChangeColorParam p v s c).1 := by
  rw [_setOrChangeColorParam]
  split_ifs <;> exact consistent_updateARduinoColor _

lemma consistent_legacyUpdate (s : ARduinoState) :
    consistent (_legacyUpdateARduinoColor s) :=
  consistent_updateARduinoColor _

lemma consistent_setSize {s : ARduinoState} (h : consistent s) (x : ℚ) :
    consistent (setARduinoSizeTo x s) := by
  simpa [consistent, specRgba, setARduinoSizeTo] using h

lemma consistent_changeSize {s : ARduinoState} (h : consistent s) (x : ℚ) :
    consistent (changeARduinoSizeBy x s) := by
  simpa [consistent, specRgba, changeARduinoSizeBy] using h

lemma consistent_arduinoDown {s : ARduinoState} (h : consistent s) (r : Bool) (t : TargetState) :
    consistent (arduinoDown r t s).1 := by
  by_cases hd : s.arduinoDown <;>
    simpa [consistent, specRgba, arduinoDown, hd] using h

lemma consistent_arduinoUp {s : ARduinoState} (h : consistent s) (t : TargetState) :
    consistent (arduinoUp t s).1 := by
  by_cases hd : s.arduinoDown <;>
    simpa [consistent, specRgba, arduinoUp, hd] using h

/-! ### Claim theorems -/

/-- Claim C1: for every actor state and every numeric input `x`, setting the
`color` parameter stores `((x % 100) + 100) % 100` (JavaScript remainder),
which lies in the half-open range [0,100); in particular 105 maps to 5 and
−5 maps to 95. -/
theorem setColorParam_wrapClamp (x : ℚ) (s : ARduinoState) :
    (setARduinoColorParamTo ColorParam.COLOR x s).1.color = jsMod (jsMod x 100 + 100) 100
    ∧ 0 ≤ (setARduinoColorParamTo ColorParam.COLOR x s).1.color
    ∧ (setARduinoColorParamTo ColorParam.COLOR x s).1.color < 100
    ∧ (setARduinoColorParamTo ColorParam.COLOR 105 s).1.color = 5
    ∧ (setARduinoColorParamTo ColorParam.COLOR (-5) s).1.color = 95 := by
  have key : ∀ y : ℚ,
      (setARduinoColorParamTo ColorParam.COLOR y s).1.color = jsMod (jsMod y 100 + 100) 100 := by
    intro y
    simp [setARduinoColorParamTo, _setOrChangeColorParam, wrapColor_eq]
  refine ⟨key x, ?_, ?_, ?_, ?_⟩
  · rw [key x]
    exact wrap_nonneg (by norm_num)
  · rw [key x]
    exact wrap_lt (by norm_num)
  · rw [key 105]
    norm_num [jsMod, ratTrunc]
  · rw [key (-5)]
    norm_num [jsMod, ratTrunc]

/-- Claim C8: `setARduinoSizeTo` stores `min (max x 1) 1200` as the diameter,
and `changeARduinoSizeBy` stores `min (max (diameter + delta) 1) 1200` — a
saturating clamp into [1,1200]. -/
theorem sizeOps_saturatingClamp (x d : ℚ) (s : ARduinoState) :
    (setARduinoSizeTo x s).arduinoAttributes.diameter = min (max x 1) 1200
    ∧ (changeARduinoSizeBy d s).arduinoAttributes.diameter
        = min (max (s.arduinoAttributes.diameter + d) 1) 1200 := by
  constructor <;>
    simp [setARduinoSizeTo, changeARduinoSizeBy, _clampARduinoSize, MathUtil.clamp,
      ARDUINO_SIZE_RANGE]

/-- Claim C10: the two size operations modify only the diameter — the trail
flag, the five color-model fields and the cached `color4f` quadruple are all
left untouched, and no rgba recompute is performed (the cache is carried over
verbatim, even when it is stale). -/
theorem sizeOps_frame (x d : ℚ) (s : ARduinoState) :
    (setARduinoSizeTo x s).arduinoDown = s.arduinoDown
    ∧ (setARduinoSizeTo x s).color = s.color
    ∧ (setARduinoSizeTo x s).saturation = s.saturation
    ∧ (setARduinoSizeTo x s).brightness = s.brightness
    ∧ (setARduinoSizeTo x s).transparency = s.transparency
    ∧ (setARduinoSizeTo x s)._shade = s._shade
    ∧ (setARduinoSizeTo x s).arduinoAttributes.color4f = s.arduinoAttributes.color4f
    ∧ (changeARduinoSizeBy d s).arduinoDown = s.arduinoDown
    ∧ (changeARduinoSizeBy d s).color = s.color
    ∧ (changeARduinoSizeBy d s).saturation = s.saturation
    ∧ (changeARduinoSizeBy d s).brightness = s.brightness
    ∧ (changeARduinoSizeBy d s).transparency = s.transparency
    ∧ (changeARduinoSizeBy d s)._shade = s._shade
    ∧ (changeARduinoSizeBy d s).arduinoAttributes.color4f = s.arduinoAttributes.color4f :=
  ⟨rfl, rfl, rfl, rfl, rfl, rfl, rfl, rfl, rfl, rfl, rfl, rfl, rfl, rfl⟩

/-- Claim C6: for each of the four recognized color parameters, changing the
parameter by `delta` produces exactly the state produced by setting it to
`delta + currentValue`. -/
theorem changeParam_eq_setParam (v : ℚ) (s : ARduinoState) :
    changeARduinoColorParamBy ColorParam.COLOR v s
      = setARduinoColorParamTo ColorParam.COLOR (v + s.color) s
    ∧ changeARduinoColorParamBy ColorParam.SATURATION v s
      = setARduinoColorParamTo ColorParam.SATURATION (v + s.saturation) s
    ∧ changeARduinoColorParamBy ColorParam.BRIGHTNESS v s
      = setARduinoColorParamTo ColorParam.BRIGHTNESS (v + s.brightness) s
    ∧ changeARduinoColorParamBy ColorParam.TRANSPARENCY v s
      = setARduinoColorParamTo ColorParam.TRANSPARENCY (v + s.transparency) s := by
  refine ⟨?_, ?_, ?_, ?_⟩ <;>
    simp [changeARduinoColorParamBy, setARduinoColorParamTo, _setOrChangeColorParam,
      ColorParam.COLOR, ColorParam.SATURATION, ColorParam.BRIGHTNESS, ColorParam.TRANSPARENCY]

/-- Claim C4: `setARduinoShadeToNumber` stores the shade reduced modulo 200
with negative correction (`((x % 200) + 200) % 200`, JavaScript remainder),
a cyclic wrap into [0,200), and then runs the legacy recompute; and
`changeARduinoShadeBy` behaves exactly as `setARduinoShadeToNumber` applied
to the stored `_shade` plus the delta. -/
theorem setShade_wraps_and_changeShade_routes (x d : ℚ) (s : ARduinoState) :
    setARduinoShadeToNumber x s
      = _legacyUpdateARduinoColor { s with _shade := jsMod (jsMod x 200 + 200) 200 }
    ∧ (setARduinoShadeToNumber x s)._shade = jsMod (jsMod x 200 + 200) 200
    ∧ 0 ≤ (setARduinoShadeToNumber x s)._shade
    ∧ (setARduinoShadeToNumber x s)._shade < 200
    ∧ changeARduinoShadeBy d s = setARduinoShadeToNumber (s._shade + d) s := by
  have hwrap := ifwrap_eq_wrap (x := x) (b := 200) (by norm_num)
  have h1 : setARduinoShadeToNumber x s
      = _legacyUpdateARduinoColor { s with _shade := jsMod (jsMod x 200 + 200) 200 } := by
    rw [setARduinoShadeToNumber, hwrap]
  have h2 : (setARduinoShadeToNumber x s)._shade = jsMod (jsMod x 200 + 200) 200 := by
    rw [h1, _legacyUpdateARduinoColor_shade]
  refine ⟨h1, h2, ?_, ?_, rfl⟩
  · rw [h2]
    exact wrap_nonneg (by norm_num)
  · rw [h2]
    exact wrap_lt (by norm_num)

/-- Claim C5: `setARduinoColorToColor` stores `color = (hue/360)*100`,
`saturation = s*100`, `brightness = v*100` from the RGB→HSV conversion of the
input, the transparency `100*(1 - alpha/255)` when an alpha channel is present
and 0 otherwise, then `_shade = brightness/2`, and then recomputes the cached
rgba (so the consistency invariant holds on the result). -/
theorem setColorToColor_stores_hsv (rgb : RgbColorObject) (s : ARduinoState) :
    (setARduinoColorToColor rgb s).color
      = (Color.rgbToHsv ⟨rgb.r, rgb.g, rgb.b⟩).h / 360 * 100
    ∧ (setARduinoColorToColor rgb s).saturation
      = (Color.rgbToHsv ⟨rgb.r, rgb.g, rgb.b⟩).s * 100
    ∧ (setARduinoColorToColor rgb s).brightness
      = (Color.rgbToHsv ⟨rgb.r, rgb.g, rgb.b⟩).v * 100
    ∧ (setARduinoColorToColor rgb s).transparency
      = (match rgb.a with | some a => 100 * (1 - a / 255) | none => 0)
    ∧ (setARduinoColorToColor rgb s)._shade = (setARduinoColorToColor rgb s).brightness / 2
    ∧ consistent (setARduinoColorToColor rgb s) :=
  ⟨rfl, rfl, rfl, rfl, rfl, consistent_updateARduinoColor _⟩

/-- Claim C9: `arduinoDown` on an already-down actor changes neither the state
nor the listener registration, and two consecutive `arduinoUp` calls have the
same observable effect as one — the second call finds the flag cleared and
performs no state change and no unsubscribe. -/
theorem trail_idempotent (r : Bool) (t : TargetState) (s : ARduinoState)
    (h : s.arduinoDown = true) :
    (arduinoDown r t s).1 = s
    ∧ (arduinoDown r t s).2.1 = t
    ∧ ∀ (t' : TargetState) (s' : ARduinoState),
        arduinoUp (arduinoUp t' s').2 (arduinoUp t' s').1 = arduinoUp t' s' := by
  refine ⟨by simp [arduinoDown, h], by simp [arduinoDown, h], ?_⟩
  intro t' s'
  by_cases h' : s'.arduinoDown <;> simp [arduinoUp, h']

/-- Claim C7: for every parameter name outside the four recognized ones, both
entry points log the warning (second component `true`), leave every state
field unmodified, and still perform the mandatory rgba recompute — which
writes back the previous rgba whenever the consistency invariant held, making
the whole call the identity on the state. -/
theorem unknownParam_noop (p : String) (v : ℚ) (s : ARduinoState)
    (hc : p ≠ ColorParam.COLOR) (hs : p ≠ ColorParam.SATURATION)
    (hb : p ≠ ColorParam.BRIGHTNESS) (ht : p ≠ ColorParam.TRANSPARENCY) :
    setARduinoColorParamTo p v s = (_updateARduinoColor s, true)
    ∧ changeARduinoColorParamBy p v s = (_updateARduinoColor s, true)
    ∧ (_updateARduinoColor s).arduinoDown = s.arduinoDown
    ∧ (_updateARduinoColor s).color = s.color
    ∧ (_updateARduinoColor s).saturation = s.saturation
    ∧ (_updateARduinoColor s).brightness = s.brightness
    ∧ (_updateARduinoColor s).transparency = s.transparency
    ∧ (_updateARduinoColor s)._shade = s._shade
    ∧ (_updateARduinoColor s).arduinoAttributes.diameter = s.arduinoAttributes.diameter
    ∧ (consistent s →
        setARduinoColorParamTo p v s = (s, true)
        ∧ changeARduinoColorParamBy p v s = (s, true)) := by
  have hset : setARduinoColorParamTo p v s = (_updateARduinoColor s, true) := by
    simp [setARduinoColorParamTo, _setOrChangeColorParam, hc, hs, hb, ht]
  have hch : changeARduinoColorParamBy p v s = (_updateARduinoColor s, true) := by
    simp [changeARduinoColorParamBy, _setOrChangeColorParam, hc, hs, hb, ht]
  refine ⟨hset, hch, rfl, rfl, rfl, rfl, rfl, rfl, rfl, fun hcons => ?_⟩
  rw [hset, hch, _updateARduinoColor_of_consistent hcons]
  exact ⟨rfl, rfl⟩

/-- Claim C3: the legacy recompute computes the step-1 color
`hsvToRgb(color*3.6°, 1, 1)`, folds the effective shade
(`legacyShade > 100 ? 200 - legacyShade : legacyShade`), mixes from black
toward the step-1 color with ratio `(10+effectiveShade)/60` below 50 and from
the step-1 color toward white with ratio `(effectiveShade-50)/60` otherwise —
at exactly 50 the toward-white branch with ratio 0 leaves the step-1 color
unchanged — then converts the mix back to HSV, overwrites color, saturation
and brightness, and refreshes the cached rgba via the modern recompute. -/
theorem legacyUpdate_matches_spec (s : ARduinoState) :
    _legacyUpdateARduinoColor s = legacySpecUpdate s := by
  have hstep : Color.hsvToRgb ⟨s.color * 360 / 100, 1, 1⟩ = legacySpecStepOneRgb s := by
    rw [legacySpecStepOneRgb, mul_360_div_100]
  have hfold : legacyShadeFold s = legacySpecEffectiveShade s := rfl
  have hmix : legacyMixedRgb s = legacySpecMixedRgb s := by
    rw [legacyMixedRgb, legacySpecMixedRgb, hfold, hstep]
    rcases lt_trichotomy (legacySpecEffectiveShade s) 50 with h | h | h
    · rw [if_pos h, if_pos h]
    · rw [if_neg (not_lt.mpr h.ge), if_neg (not_lt.mpr h.ge), if_pos h, h]
      norm_num [mixRgb_zero]
    · rw [if_neg (not_lt.mpr h.le), if_neg (not_lt.mpr h.le), if_neg h.ne']
  rw [_legacyUpdateARduinoColor, legacySpecUpdate, hmix]

/-- Claim C2: starting from a state whose cached rgba is consistent with its
`(color, saturation, brightness, transparency)` tuple — alpha being the
complement `1 - transparency/100` — every exposed operation returns a state
that is again consistent: the color-parameter setters/changers (any parameter
name), the RGB(A) color setter, the four legacy hue/shade operations, the two
size operations and the two trail operations never leave the rgba stale. -/
theorem operations_preserve_rgbaConsistency (s : ARduinoState) (h : consistent s) :
    (∀ (p : String) (v : ℚ), consistent (setARduinoColorParamTo p v s).1)
    ∧ (∀ (p : String) (v : ℚ), consistent (changeARduinoColorParamBy p v s).1)
    ∧ (∀ rgb : RgbColorObject, consistent (setARduinoColorToColor rgb s))
    ∧ (∀ x : ℚ, consistent (setARduinoHueToNumber x s))
    ∧ (∀ x : ℚ, consistent (changeARduinoHueBy x s))
    ∧ (∀ x : ℚ, consistent (setARduinoShadeToNumber x s))
    ∧ (∀ x : ℚ, consistent (changeARduinoShadeBy x s))
    ∧ (∀ x : ℚ, consistent (setARduinoSizeTo x s))
    ∧ (∀ x : ℚ, consistent (changeARduinoSizeBy x s))
    ∧ (∀ (r : Bool) (t : TargetState), consistent (arduinoDown r t s).1)
    ∧ (∀ t : TargetState, consistent (arduinoUp t s).1) := by
  refine ⟨fun p v => consistent_setOrChange p v s false,
    fun p v => consistent_setOrChange p v s true,
    fun rgb => consistent_updateARduinoColor _,
    fun x => consistent_legacyUpdate _,
    fun x => consistent_legacyUpdate _,
    fun x => consistent_legacyUpdate _,
    fun x => consistent_legacyUpdate _,
    fun x => consistent_setSize h x,
    fun x => consistent_changeSize h x,
    fun r t => consistent_arduinoDown h r t,
    fun t => consistent_arduinoUp h t⟩

/-- Witness for claim C2: the default state satisfies the consistency
invariant, and (by the theorem) a concrete size change keeps it. -/
theorem operations_preserve_rgbaConsistency_witness :
    consistent DEFAULT_ARDUINO_STATE
    ∧ consistent (setARduinoSizeTo 9999 DEFAULT_ARDUINO_STATE) :=
  have hD : consistent DEFAULT_ARDUINO_STATE := by
    norm_num [consistent, specRgba, DEFAULT_ARDUINO_STATE, Color.hsvToRgb, hsvToRgbUnit,
      hsvSector, hsvFrac, hueNorm, jsMod, ratTrunc, min_def, max_def]
  ⟨hD, (operations_preserve_rgbaConsistency DEFAULT_ARDUINO_STATE hD).2.2.2.2.2.2.2.1 9999⟩

/-- Witness for claim C7: `purple` is not a recognized parameter name, and
setting it on the default state just recomputes the rgba and warns. -/
theorem unknownParam_noop_witness :
    (("purple" : String) ≠ ColorParam.COLOR ∧ ("purple" : String) ≠ ColorParam.SATURATION
      ∧ ("purple" : String) ≠ ColorParam.BRIGHTNESS
      ∧ ("purple" : String) ≠ ColorParam.TRANSPARENCY)
    ∧ setARduinoColorParamTo "purple" 7 DEFAULT_ARDUINO_STATE
        = (_updateARduinoColor DEFAULT_ARDUINO_STATE, true) :=
  ⟨⟨by simp [ColorParam.COLOR], by simp [ColorParam.SATURATION],
    by simp [ColorParam.BRIGHTNESS], by simp [ColorParam.TRANSPARENCY]⟩,
   (unknownParam_noop "purple" 7 DEFAULT_ARDUINO_STATE (by simp [ColorParam.COLOR])
     (by simp [ColorParam.SATURATION]) (by simp [ColorParam.BRIGHTNESS])
     (by simp [ColorParam.TRANSPARENCY])).1⟩

/-- Witness for claim C9: on a concrete already-down state, `arduinoDown`
leaves the state unchanged. -/
theorem trail_idempotent_witness :
    ({ DEFAULT_ARDUINO_STATE with arduinoDown := true } : ARduinoState).arduinoDown = true
    ∧ (arduinoDown true ⟨0, 0, 1⟩ { DEFAULT_ARDUINO_STATE with arduinoDown := true }).1
        = { DEFAULT_ARDUINO_STATE with arduinoDown := true } :=
  ⟨rfl, (trail_idempotent true ⟨0, 0, 1⟩ _ rfl).1⟩
